import Mathlib

/-!
Verification of the movie-tracker application (`app.py`).

The file gives a shallow embedding of the data model and the operations of
the application and proves properties about them.  The in-memory pandas
DataFrame is modelled at two levels:

* a row level: `MovieRec` is one row; the table is a `List MovieRec` in
  original (RangeIndex) order; `df.loc[idx, col] = v` becomes `updateAt`;
* a column level (used for `load_data` / `to_csv`): `RawTable` is a list of
  named columns of `Cell` values, where `Cell.na` models a missing value
  (NaN).

Python string primitives that the application uses (`str.split(", ")`,
`str.strip()`, lower-casing for case-insensitive containment) are embedded
as executable functions on character lists with the semantics of the
corresponding Python operations.
-/

/-- Python `s.split(", ")` on the character level: the accumulator `cur`
holds the current field reversed; each non-overlapping occurrence of the
two-character separator `", "` closes a field.  Python yields `[""]` on the
empty string, which this function reproduces. -/
def splitCommaSpace : List Char → List Char → List String
  | cur, [] => [String.mk cur.reverse]
  | cur, ',' :: ' ' :: rest => String.mk cur.reverse :: splitCommaSpace [] rest
  | cur, c :: rest => splitCommaSpace (c :: cur) rest

/-- Python `s.split(", ")`. -/
def pySplitCS (s : String) : List String := splitCommaSpace [] s.data

/-- Lower-casing of a character list (for `case=False` containment tests). -/
def lowerChars (l : List Char) : List Char := l.map Char.toLower

/-- Python `s.strip()`: drop whitespace from both ends. -/
def pyStrip (s : String) : String :=
  String.mk (((s.data.dropWhile Char.isWhitespace).reverse.dropWhile Char.isWhitespace).reverse)

/-- Does `l` start with `p`? -/
def startsWithL : List Char → List Char → Bool
  | [], _ => true
  | _ :: _, [] => false
  | a :: p, b :: l => a == b && startsWithL p l

/-- Is `p` a contiguous sublist of `l`?  (Python `pat in s` on characters.) -/
def containsSub (p : List Char) : List Char → Bool
  | [] => p.isEmpty
  | c :: l => startsWithL p (c :: l) || containsSub p l

/-- One row of the movie table, with the columns `load_data` guarantees.
`rating` is the numeric rating or null; `year`, `genres`, `actors` use
`none` for a missing (NaN) cell. -/
structure MovieRec where
  title : String
  year : Option Int
  genres : Option String
  actors : Option String
  director : String
  plot : String
  posterURL : String
  rating : Option ℚ
  watched : Bool
deriving DecidableEq, Repr

/-- The derived `Genres_list` entry of a row
(line 62: `df["Genres"].fillna("").apply(lambda x: x.split(", ") if isinstance(x, str) else [])`,
restricted to the string/NaN cells a row carries). -/
def genres_list (g : Option String) : List String := pySplitCS (g.getD "")

/-- `df["Title"].dropna().astype(str).tolist()` (line 92); titles are
modelled as plain strings, so this is the list of all titles. -/
def all_titles (df : List MovieRec) : List String := df.map (fun r => r.title)

/-- `get_fuzzy_matches` (lines 80-84).  The rapidfuzz scorer
`process.extract` is an external library call and is passed in as the
parameter `extract`; the defaults in the application are `limit = 8`,
`score_cutoff = 60`.  An empty query short-circuits to `[]` before the
library is consulted (`if not query: return []`). -/
def get_fuzzy_matches (extract : String → List String → Nat → Nat → List (String × Nat))
    (query : String) (choices : List String) (limit score_cutoff : Nat) : List String :=
  if query == "" then [] else (extract query choices limit score_cutoff).map Prod.fst

/-- `df[df["Title"] == t].index[0]` (line 134): the first row position whose
title equals `t`, or `none` when no row matches (pandas would raise there;
the application only reaches this with a title drawn from the table). -/
def top_match_idx : List MovieRec → String → Option Nat
  | [], _ => none
  | r :: rs, t => if r.title == t then some 0 else (top_match_idx rs t).map (fun i => i + 1)

/-- Point update of one row, `df.loc[i, col] = v`: apply `f` to the row at
position `i`, leave every other row unchanged. -/
def updateAt : List MovieRec → Nat → (MovieRec → MovieRec) → List MovieRec
  | [], _, _ => []
  | r :: rs, 0, f => f r :: rs
  | r :: rs, n + 1, f => r :: updateAt rs n f

/-- `df.loc[i, "Watched"] = v` (lines 152 and 172). -/
def set_watched (df : List MovieRec) (i : Nat) (v : Bool) : List MovieRec :=
  updateAt df i (fun r => { r with watched := v })

/-- The rating-update block (lines 157-159):
`df.loc[i, "Rating"] = v` followed by
`if v is not None: df.loc[i, "Watched"] = True`. -/
def set_rating (df : List MovieRec) (i : Nat) (v : Option ℚ) : List MovieRec :=
  let df1 := updateAt df i (fun r => { r with rating := v })
  match v with
  | some _ => updateAt df1 i (fun r => { r with watched := true })
  | none => df1

/-- The three-valued watched-status selector (line 107). -/
inductive WatchedFilter where
  | all
  | watchedOnly
  | notWatched
deriving DecidableEq, Repr

/-- The active filter selections (lines 96-107).  `"All"` marks the
director/actor selectors as inactive, an empty list the genre selector,
`none` the decade selector ("All"). -/
structure Criteria where
  director : String
  actor : String
  genres : List String
  decade : Option Int
  watchedFilter : WatchedFilter
deriving DecidableEq, Repr

/-- `df["Actors"].str.contains(sel, case=False, na=False)` for one cell:
a missing actor string is a non-match (`na=False`); otherwise a
case-insensitive containment test. -/
def actor_contains (a : Option String) (sel : String) : Bool :=
  match a with
  | none => false
  | some s => containsSub (lowerChars sel.data) (lowerChars s.data)

/-- `(y // 10) * 10` lifted over a possibly missing year; a NaN year
propagates (and compares unequal to every concrete decade). -/
def yearDecade (y : Option Int) : Option Int := y.map (fun v => Int.fdiv v 10 * 10)

/-- Director narrowing (lines 111-112). -/
def filterDirector (c : Criteria) (df : List MovieRec) : List MovieRec :=
  if c.director == "All" then df else df.filter (fun r => r.director == c.director)

/-- Actor narrowing (lines 113-114). -/
def filterActor (c : Criteria) (df : List MovieRec) : List MovieRec :=
  if c.actor == "All" then df else df.filter (fun r => actor_contains r.actors c.actor)

/-- Genre narrowing (lines 115-116): keep rows whose derived genre list
meets any selected genre. -/
def filterGenres (c : Criteria) (df : List MovieRec) : List MovieRec :=
  if c.genres.isEmpty then df
  else df.filter (fun r => c.genres.any (fun g => (genres_list r.genres).contains g))

/-- Decade narrowing (lines 117-118). -/
def filterDecade (c : Criteria) (df : List MovieRec) : List MovieRec :=
  match c.decade with
  | none => df
  | some d => df.filter (fun r => yearDecade r.year == some d)

/-- Watched-status narrowing (lines 119-122). -/
def filterWatched (c : Criteria) (df : List MovieRec) : List MovieRec :=
  match c.watchedFilter with
  | WatchedFilter.all => df
  | WatchedFilter.watchedOnly => df.filter (fun r => r.watched == true)
  | WatchedFilter.notWatched => df.filter (fun r => r.watched == false)

/-- The sequential narrowing pass of lines 110-122. -/
def applyFilters (df : List MovieRec) (c : Criteria) : List MovieRec :=
  filterWatched c (filterDecade c (filterGenres c (filterActor c (filterDirector c df))))

/-- Is any non-title filter active? (the disjunction shared by lines 124 and 162). -/
def anyFilterActive (c : Criteria) : Bool :=
  c.director != "All" || c.actor != "All" || !c.genres.isEmpty || c.decade.isSome ||
    c.watchedFilter != WatchedFilter.all

/-- `search_or_filter_applied` (line 124). -/
def search_or_filter_applied (q : String) (c : Criteria) : Bool :=
  q != "" || anyFilterActive c

/-- `filters_applied_only` (line 162): no title query and some filter active. -/
def filters_applied_only (q : String) (c : Criteria) : Bool :=
  q == "" && anyFilterActive c

/-- The detail ("strict closest title match") view, lines 129-135: shown
only when some search or filter is applied, the query is non-empty and the
fuzzy matcher produced candidates; it resolves the single top candidate by
title against the FULL table. -/
def detail_view (df : List MovieRec) (q : String) (matched : List String) : Option MovieRec :=
  if q != "" then
    match matched with
    | [] => none
    | t :: _ =>
      match top_match_idx df t with
      | some i => df[i]?
      | none => none
  else none

/-- The "Other Matches" list, lines 162-172: rendered only when
`filters_applied_only` holds and the narrowed table is non-empty. -/
def other_matches (df : List MovieRec) (q : String) (c : Criteria) : Option (List MovieRec) :=
  if filters_applied_only q c && !(applyFilters df c).isEmpty then some (applyFilters df c)
  else none

/-- The random picker (lines 179-184): filter to the unwatched rows and, if
any remain, sample one (`sample(1)` is modelled by an arbitrary draw index
`k`, reduced modulo the pool size); on an empty pool the empty signal
`none` is returned. -/
def random_picker (df : List MovieRec) (k : Nat) : Option MovieRec :=
  let pool := df.filter (fun r => r.watched == false)
  if pool.isEmpty then none else pool.get? (k % pool.length)

/-- `df[df["Watched"] == True]` (line 199). -/
def watched_df (df : List MovieRec) : List MovieRec := df.filter (fun r => r.watched == true)

/-- May row `a` stand immediately before row `b` in the output of
`sort_values(by="Rating", ascending=False)`?  Ratings must be
non-increasing and NaN ratings are placed last (`na_position="last"`). -/
def ratingDescOK (a b : MovieRec) : Bool :=
  match a.rating, b.rating with
  | _, none => true
  | none, some _ => false
  | some x, some y => y ≤ x

/-- Adjacent-pairs check that a whole list is ordered by `ratingDescOK`. -/
def descChain : List MovieRec → Bool
  | [] => true
  | [_] => true
  | a :: b :: rest => ratingDescOK a b && descChain (b :: rest)

/-- The contract of `sort_values(by="Rating", ascending=False)` with the
default sort kind (quicksort): `out` is SOME permutation of the input with
non-increasing ratings and NaN last.  The default kind is not stable, so no
tie order beyond this is guaranteed. -/
def SortValuesDescRating (inp out : List MovieRec) : Prop :=
  out.Perm inp ∧ descChain out = true

/- ---------------------------------------------------------------------- -/
/- Column-level model of `load_data` and `to_csv`.                         -/
/- ---------------------------------------------------------------------- -/

/-- One CSV/DataFrame cell: missing (NaN), text, number, boolean, or a
Python list of strings (the derived `Genres_list` cells). -/
inductive Cell where
  | na
  | str (s : String)
  | num (q : ℚ)
  | boolean (b : Bool)
  | strlist (l : List String)
deriving DecidableEq, Repr

/-- A named-column table; `nrows` is the row count. -/
structure RawTable where
  nrows : Nat
  cols : List (String × List Cell)
deriving DecidableEq, Repr

/-- The required schema (line 53). -/
def requiredColumns : List String :=
  ["Title", "Year", "Genres", "Actors", "Director", "Plot", "Poster_URL", "Rating", "Watched"]

/-- The default column for a missing required column (lines 54-61):
`Rating` gets null, `Watched` gets `False`, anything else `"N/A"`. -/
def defaultCol (name : String) (n : Nat) : List Cell :=
  if name == "Rating" then List.replicate n Cell.na
  else if name == "Watched" then List.replicate n (Cell.boolean false)
  else List.replicate n (Cell.str "N/A")

/-- First column with the given name (pandas label lookup). -/
def lookupCol (cols : List (String × List Cell)) (name : String) : Option (List Cell) :=
  (cols.find? (fun p => p.1 == name)).map Prod.snd

/-- `df.columns = [col.strip() for col in df.columns]` (line 52). -/
def stripColumns (cols : List (String × List Cell)) : List (String × List Cell) :=
  cols.map (fun p => (pyStrip p.1, p.2))

/-- The defaulting loop of lines 54-61: append a default column for each
required column that is absent. -/
def addMissingColumns (cols : List (String × List Cell)) (n : Nat) : List (String × List Cell) :=
  requiredColumns.foldl
    (fun acc name => if (lookupCol acc name).isSome then acc else acc ++ [(name, defaultCol name n)])
    cols

/-- `fillna("")` on one cell. -/
def fillnaEmpty (c : Cell) : Cell :=
  match c with
  | Cell.na => Cell.str ""
  | c => c

/-- `x.split(", ") if isinstance(x, str) else []` on one cell. -/
def splitIfStr (c : Cell) : List String :=
  match c with
  | Cell.str s => pySplitCS s
  | _ => []

/-- The `Genres_list` derivation of line 62 applied to one raw cell. -/
def derive_genres_cell (c : Cell) : List String := splitIfStr (fillnaEmpty c)

/-- Column assignment `df[name] = v`: overwrite in place when the label
exists, else append at the end. -/
def setCol (cols : List (String × List Cell)) (name : String) (v : List Cell) :
    List (String × List Cell) :=
  if (lookupCol cols name).isSome then
    cols.map (fun p => if p.1 == name then (p.1, v) else p)
  else cols ++ [(name, v)]

/-- `load_data` (lines 50-63) at the column level: strip the header names,
default the missing required columns, derive `Genres_list`.  CSV parsing
itself is outside the modelled core, so the input is the already-parsed
cell table. -/
def load_data (t : RawTable) : RawTable :=
  let c1 := stripColumns t.cols
  let c2 := addMissingColumns c1 t.nrows
  let g := (lookupCol c2 "Genres").getD []
  { nrows := t.nrows, cols := setCol c2 "Genres_list" (g.map (fun c => Cell.strlist (derive_genres_cell c))) }

/-- The export surface `df.to_csv(index=False)` (line 287): every stored
column with its values; serialization to text is outside the modelled
core. -/
def to_csv (t : RawTable) : List (String × List Cell) := t.cols

/- ---------------------------------------------------------------------- -/
/- Sample rows used to instantiate theorems at concrete inputs.            -/
/- ---------------------------------------------------------------------- -/

/-- A concrete unwatched, unrated row. -/
def sampleRec : MovieRec :=
  ⟨"Braveheart", some 1995, some "Action, Drama", some "Mel Gibson, Sophie Marceau",
    "Mel Gibson", "A plot", "url", none, false⟩

/-- A concrete watched row. -/
def watchedRec : MovieRec := { sampleRec with watched := true }

/-- A concrete row with a missing actor cell. -/
def noActorRec : MovieRec := { sampleRec with title := "NoActors", actors := none }

/-- A concrete row from 1994. -/
def rec1994 : MovieRec := { sampleRec with title := "Pulp Fiction", year := some 1994 }

/-- A concrete row with a missing year. -/
def recNullYear : MovieRec := { sampleRec with title := "NoYear", year := none }

/-- Criteria with only the actor selector active. -/
def onlyActor (a : String) : Criteria := ⟨"All", a, [], none, WatchedFilter.all⟩

/-- Criteria with only the decade selector active. -/
def onlyDecade (d : Int) : Criteria := ⟨"All", "All", [], some d, WatchedFilter.all⟩

/- ---------------------------------------------------------------------- -/
/- Helper lemmas.                                                          -/
/- ---------------------------------------------------------------------- -/

theorem updateAt_getElem_self (df : List MovieRec) (i : Nat) (f : MovieRec → MovieRec) :
    (updateAt df i f)[i]? = df[i]?.map f := by
  induction df generalizing i with
  | nil => cases i <;> rfl
  | cons r rs ih =>
    cases i with
    | zero => simp [updateAt]
    | succ n => simpa [updateAt] using ih n

theorem updateAt_getElem_other (df : List MovieRec) (i j : Nat) (f : MovieRec → MovieRec)
    (h : j ≠ i) : (updateAt df i f)[j]? = df[j]? := by
  induction df generalizing i j with
  | nil => cases i <;> rfl
  | cons r rs ih =>
    cases i with
    | zero => cases j with
      | zero => exact absurd rfl h
      | succ m => simp [updateAt]
    | succ n => cases j with
      | zero => simp [updateAt]
      | succ m => simpa [updateAt] using ih n m (fun hc => h (by omega))

theorem mem_filterDirector (c : Criteria) (df : List MovieRec) (r : MovieRec)
    (h : r ∈ filterDirector c df) : r ∈ df := by
  unfold filterDirector at h
  split at h
  · exact h
  · exact (List.mem_filter.mp h).1

theorem mem_filterActor (c : Criteria) (df : List MovieRec) (r : MovieRec)
    (h : r ∈ filterActor c df) : r ∈ df := by
  unfold filterActor at h
  split at h
  · exact h
  · exact (List.mem_filter.mp h).1

theorem mem_filterGenres (c : Criteria) (df : List MovieRec) (r : MovieRec)
    (h : r ∈ filterGenres c df) : r ∈ df := by
  unfold filterGenres at h
  split at h
  · exact h
  · exact (List.mem_filter.mp h).1

theorem mem_filterDecade (c : Criteria) (df : List MovieRec) (r : MovieRec)
    (h : r ∈ filterDecade c df) : r ∈ df := by
  unfold filterDecade at h
  split at h
  · exact h
  · exact (List.mem_filter.mp h).1

theorem mem_filterWatched (c : Criteria) (df : List MovieRec) (r : MovieRec)
    (h : r ∈ filterWatched c df) : r ∈ df := by
  unfold filterWatched at h
  split at h
  · exact h
  · exact (List.mem_filter.mp h).1
  · exact (List.mem_filter.mp h).1

/-- A row surviving the whole narrowing pass passed the actor stage. -/
theorem mem_applyFilters_actor (df : List MovieRec) (c : Criteria) (r : MovieRec)
    (h : r ∈ applyFilters df c) (hact : c.actor ≠ "All") :
    actor_contains r.actors c.actor = true := by
  unfold applyFilters at h
  have h2 : r ∈ filterActor c (filterDirector c df) :=
    mem_filterGenres c _ r (mem_filterDecade c _ r (mem_filterWatched c _ r h))
  unfold filterActor at h2
  rw [if_neg (by simpa using hact)] at h2
  exact (List.mem_filter.mp h2).2

/-- A row surviving the whole narrowing pass passed the decade stage. -/
theorem mem_applyFilters_decade (df : List MovieRec) (c : Criteria) (d : Int) (r : MovieRec)
    (h : r ∈ applyFilters df c) (hd : c.decade = some d) :
    (yearDecade r.year == some d) = true := by
  unfold applyFilters at h
  have h2 : r ∈ filterDecade c (filterGenres c (filterActor c (filterDirector c df))) :=
    mem_filterWatched c _ r h
  unfold filterDecade at h2
  rw [hd] at h2
  exact (List.mem_filter.mp h2).2

/- ---------------------------------------------------------------------- -/
/- Claim theorems.                                                         -/
/- ---------------------------------------------------------------------- -/

/-- C1: the rating-update block stores exactly the chosen rating at the
selected row; a non-null rating also forces the watched flag to true, and
a null rating leaves every other field of the row, including the watched
flag, at its prior value. -/
theorem set_rating_stores_and_forces_watched (df : List MovieRec) (i : Nat) (r : MovieRec)
    (h : df[i]? = some r) :
    (∀ q : ℚ, (set_rating df i (some q))[i]? =
      some { r with rating := some q, watched := true }) ∧
    (set_rating df i none)[i]? = some { r with rating := none } := by
  constructor
  · intro q
    simp [set_rating, updateAt_getElem_self, h]
  · simp [set_rating, updateAt_getElem_self, h]

/-- Witness for C1 at a concrete one-row table. -/
theorem set_rating_stores_and_forces_watched_witness :
    (set_rating [sampleRec] 0 (some 7))[0]? =
      some { sampleRec with rating := some 7, watched := true } :=
  (set_rating_stores_and_forces_watched [sampleRec] 0 sampleRec rfl).1 7

/-- C6: for every candidate list, limit, cutoff and library scorer, the
fuzzy matcher is a no-op on the empty query: it returns the empty match
list (it never treats an absent query as matching everything). -/
theorem get_fuzzy_matches_empty_query
    (extract : String → List String → Nat → Nat → List (String × Nat))
    (choices : List String) (limit score_cutoff : Nat) :
    get_fuzzy_matches extract "" choices limit score_cutoff = [] := rfl

/-- C7: a row passes the decade stage exactly when its year is present and
`floor(year / 10) * 10` equals the selected decade; a row with a missing
year never survives any narrowing pass whose decade selector is active. -/
theorem decade_filter_spec (df : List MovieRec) (d : Int) (r : MovieRec) (c : Criteria)
    (hc : c.decade = some d) :
    (r.year = none → r ∉ applyFilters df c) ∧
    (r ∈ applyFilters df (onlyDecade d) ↔
      r ∈ df ∧ ∃ y, r.year = some y ∧ Int.fdiv y 10 * 10 = d) := by
  constructor
  · intro hy hmem
    have := mem_applyFilters_decade df c d r hmem hc
    rw [hy] at this
    simp [yearDecade] at this
  · have heq : applyFilters df (onlyDecade d) =
        df.filter (fun r => yearDecade r.year == some d) := rfl
    rw [heq, List.mem_filter]
    constructor
    · rintro ⟨hmem, hpred⟩
      refine ⟨hmem, ?_⟩
      cases hy : r.year with
      | none => rw [hy] at hpred; simp [yearDecade] at hpred
      | some y =>
        rw [hy] at hpred
        simp only [yearDecade, Option.map_some', beq_iff_eq, Option.some.injEq] at hpred
        exact ⟨y, rfl, hpred⟩
    · rintro ⟨hmem, y, hy, hval⟩
      exact ⟨hmem, by simp [yearDecade, hy, hval]⟩

/-- Witness for C7: a 1994 row passes the 1990 decade filter, a row with a
missing year does not. -/
theorem decade_filter_spec_witness :
    recNullYear ∉ applyFilters [recNullYear, rec1994] (onlyDecade 1990) ∧
    rec1994 ∈ applyFilters [recNullYear, rec1994] (onlyDecade 1990) := by
  constructor
  · exact (decade_filter_spec [recNullYear, rec1994] 1990 recNullYear (onlyDecade 1990) rfl).1 rfl
  · exact (decade_filter_spec [recNullYear, rec1994] 1990 rec1994 (onlyDecade 1990) rfl).2.mpr
      ⟨by decide, 1994, rfl, by decide⟩

/-- C8: on a table in which every row is watched, the random picker
returns the empty signal `none` for every draw, instead of failing; the
picker only reads the table (it is a pure function of it). -/
theorem random_picker_all_watched (df : List MovieRec) (k : Nat)
    (h : ∀ r ∈ df, r.watched = true) : random_picker df k = none := by
  have hpool : df.filter (fun r => r.watched == false) = [] := by
    rw [List.filter_eq_nil_iff]
    intro a ha
    simp [h a ha]
  show (let pool := df.filter (fun r => r.watched == false);
    if pool.isEmpty then none else pool.get? (k % pool.length)) = none
  rw [hpool]
  rfl

/-- Witness for C8 at a concrete all-watched table. -/
theorem random_picker_all_watched_witness : random_picker [watchedRec] 3 = none :=
  random_picker_all_watched [watchedRec] 3 (by decide)

/-- C10: an active actor selector excludes every row whose raw actor cell
is missing: the `na=False` containment test makes missing actor data a
non-match rather than an error or a match. -/
theorem actor_filter_excludes_missing (df : List MovieRec) (c : Criteria) (r : MovieRec)
    (hact : c.actor ≠ "All") (hr : r.actors = none) : r ∉ applyFilters df c := by
  intro hmem
  have h := mem_applyFilters_actor df c r hmem hact
  rw [hr] at h
  simp [actor_contains] at h

/-- Witness for C10 at a concrete table and active actor selector. -/
theorem actor_filter_excludes_missing_witness :
    noActorRec ∉ applyFilters [noActorRec] (onlyActor "Mel") :=
  actor_filter_excludes_missing [noActorRec] (onlyActor "Mel") noActorRec (by decide) rfl

/-- Characterization of the title-based target resolution of line 134: the
returned position holds a row with the looked-up title and every earlier
row has a different title (first match wins). -/
theorem top_match_idx_spec (df : List MovieRec) (t : String) (i : Nat)
    (h : top_match_idx df t = some i) :
    (∃ r, df[i]? = some r ∧ r.title = t) ∧
    (∀ j r, j < i → df[j]? = some r → r.title ≠ t) := by
  induction df generalizing i with
  | nil => simp [top_match_idx] at h
  | cons a rs ih =>
    by_cases ha : a.title = t
    · rw [top_match_idx, if_pos (by simpa using ha)] at h
      cases h
      exact ⟨⟨a, by simp, ha⟩, fun j r hj => absurd hj (by omega)⟩
    · rw [top_match_idx, if_neg (by simpa using ha)] at h
      cases hrec : top_match_idx rs t with
      | none => rw [hrec] at h; simp at h
      | some i0 =>
        rw [hrec] at h
        simp only [Option.map_some', Option.some.injEq] at h
        subst h
        obtain ⟨⟨r0, hr0, hrt⟩, hfirst⟩ := ih i0 hrec
        refine ⟨⟨r0, by simpa using hr0, hrt⟩, ?_⟩
        intro j r hj hget
        cases j with
        | zero =>
          simp only [List.getElem?_cons_zero, Option.some.injEq] at hget
          subst hget
          exact ha
        | succ m =>
          simp only [List.getElem?_cons_succ] at hget
          exact hfirst m r (by omega) hget

/-- C2: with a non-empty title query, the filtered "Other Matches" list is
never rendered (it appears only when the query is empty), and the detail
view is determined solely by the single top-ranked candidate of the fuzzy
matcher, resolved against the FULL table: the trailing candidates are
ignored and the shown row only has to bear the top candidate title, not to
pass any of the other active predicates. -/
theorem title_query_overrides_filters (df : List MovieRec) (c : Criteria) (q : String)
    (extract : String → List String → Nat → Nat → List (String × Nat)) (hq : q ≠ "") :
    other_matches df q c = none ∧
    (∀ t rest, detail_view df q (t :: rest) = detail_view df q [t]) ∧
    (∀ t rest r, detail_view df q (t :: rest) = some r → r ∈ df ∧ r.title = t) ∧
    (∀ t rest limit score_cutoff,
      get_fuzzy_matches extract q (all_titles df) limit score_cutoff = t :: rest →
      detail_view df q (get_fuzzy_matches extract q (all_titles df) limit score_cutoff) =
        detail_view df q [t]) := by
  have hqb : (q == "") = false := by simpa using hq
  refine ⟨?_, ?_, ?_, ?_⟩
  · simp [other_matches, filters_applied_only, hqb]
  · intro t rest
    simp [detail_view, hqb]
  · intro t rest r hr
    simp only [detail_view, bne, hqb, Bool.not_false, if_true] at hr
    cases hidx : top_match_idx df t with
    | none => rw [hidx] at hr; simp at hr
    | some i =>
      rw [hidx] at hr
      simp only [] at hr
      obtain ⟨⟨r0, hr0, hrt⟩, _⟩ := top_match_idx_spec df t i hidx
      rw [hr0] at hr
      cases hr
      exact ⟨List.getElem?_mem hr0, hrt⟩
  · intro t rest limit score_cutoff hm
    rw [hm]
    simp [detail_view, hqb]

/-- Witness for C2: a concrete query, scorer and active actor filter. -/
theorem title_query_overrides_filters_witness :
    other_matches [sampleRec, rec1994] "Brave" (onlyActor "Mel") = none :=
  (title_query_overrides_filters [sampleRec, rec1994] (onlyActor "Mel") "Brave"
    (fun _ _ _ _ => [("Braveheart", 90)]) (by decide)).1

/-- Two distinct rows sharing one title. -/
def dupA : MovieRec := { sampleRec with title := "Dup", year := some 1980 }

/-- Second row with the duplicated title. -/
def dupB : MovieRec := { sampleRec with title := "Dup", year := some 1999 }

/-- C5 counterexample: the detail-view mutation target of line 134 is
resolved by TITLE equality, taking the first matching row.  In the table
[dupA, dupB], whose two distinct rows both bear the title "Dup", the
resolution yields position 0, so the second row, although it bears the
looked-up title, can never be the detail-view mutation target: target
identification is by title, not purely by row position. -/
theorem mutation_by_title_cex :
    top_match_idx [dupA, dupB] "Dup" = some 0 ∧
    [dupA, dupB][1]? = some dupB ∧ dupB.title = "Dup" ∧ dupA ≠ dupB := by
  refine ⟨by decide, by decide, by decide, by decide⟩

/-- C5 amended: the point mutations themselves (rating block, watched
checkbox) write only at the addressed row position, but the detail-view
position is obtained from the fuzzy top title by first-match title lookup,
so with duplicated titles the detail-view mutations always land on the
first row bearing the title. -/
theorem mutation_target_resolution (df : List MovieRec) (t : String) (i : Nat)
    (h : top_match_idx df t = some i) :
    (∃ r, df[i]? = some r ∧ r.title = t) ∧
    (∀ j r, j < i → df[j]? = some r → r.title ≠ t) ∧
    (∀ v j, j ≠ i → (set_rating df i v)[j]? = df[j]?) ∧
    (∀ b j, j ≠ i → (set_watched df i b)[j]? = df[j]?) := by
  refine ⟨(top_match_idx_spec df t i h).1, (top_match_idx_spec df t i h).2, ?_, ?_⟩
  · intro v j hj
    cases v with
    | none => exact updateAt_getElem_other df i j _ hj
    | some q =>
      show (updateAt (updateAt df i _) i _)[j]? = df[j]?
      rw [updateAt_getElem_other _ i j _ hj, updateAt_getElem_other df i j _ hj]
  · intro b j hj
    exact updateAt_getElem_other df i j _ hj

/-- Witness for C5 amended: rating the resolved first "Dup" row leaves the
second row untouched. -/
theorem mutation_target_resolution_witness :
    (set_rating [dupA, dupB] 0 (some 5))[1]? = some dupB :=
  ((mutation_target_resolution [dupA, dupB] "Dup" 0 (by decide)).2.2.1
    (some 5) 1 (by decide)).trans (by decide)

/-- C4 counterexample: the Genres_list derivation of line 62 sends a
missing raw genre cell (filled to the empty string) and an empty raw genre
string to the one-element list containing the empty string, not to the
empty list, because Python "".split(", ") is [""]. -/
theorem genres_empty_split_cex :
    derive_genres_cell Cell.na = [""] ∧
    derive_genres_cell (Cell.str "") = [""] ∧
    ([""] : List String) ≠ [] := by
  refine ⟨by decide, by decide, by decide⟩

/-- C4 amended: load derives the genres list by splitting the raw
comma-separated genre string on ", "; a missing raw cell is first filled
with the empty string, so a missing or empty raw genre string yields the
singleton list [""] rather than the empty list, while a non-string raw
cell yields the empty list. -/
theorem genres_list_derivation :
    derive_genres_cell (Cell.str "Action, Drama") = ["Action", "Drama"] ∧
    derive_genres_cell (Cell.str "Action") = ["Action"] ∧
    derive_genres_cell Cell.na = [""] ∧
    derive_genres_cell (Cell.str "") = [""] ∧
    derive_genres_cell (Cell.num 3) = [] ∧
    derive_genres_cell (Cell.boolean true) = [] := by
  refine ⟨by decide, by decide, by decide, by decide, by decide, by decide⟩

/-- Watched row A rated 9. -/
def topA : MovieRec := { sampleRec with title := "A", rating := some 9, watched := true }

/-- Watched row B rated 9. -/
def topB : MovieRec := { sampleRec with title := "B", rating := some 9, watched := true }

/-- Watched row C rated 7. -/
def topC : MovieRec := { sampleRec with title := "C", rating := some 7, watched := true }

/-- C3 counterexample: on the watched rows [A, B] with equal ratings 9,
the output [B, A] satisfies everything the code guarantees for
sort_values(by="Rating", ascending=False) with its default sort kind
(quicksort, which is not stable), yet it presents the tied rows out of
original table order; the stable tie-break the claim states is therefore
not guaranteed by the code. -/
theorem top_rated_stable_cex :
    SortValuesDescRating (watched_df [topA, topB]) [topB, topA] ∧
    topA.rating = topB.rating ∧
    ([topB, topA].take 2 ≠ [topA, topB]) := by
  refine ⟨⟨by decide, by decide⟩, by decide, by decide⟩

/-- C3 amended: every output admitted by the descending rating sort
contract on the watched rows [(A,9),(B,9),(C,7)] keeps the 7-rated row
last, so the top-two listing always consists of the two 9-rated rows A and
B — but in either order, since the default pandas sort kind gives no
stability promise for ties. -/
theorem top_rated_spec (out : List MovieRec)
    (h : SortValuesDescRating (watched_df [topA, topB, topC]) out) :
    (out = [topA, topB, topC] ∨ out = [topB, topA, topC]) ∧
    (out.take 2 = [topA, topB] ∨ out.take 2 = [topB, topA]) := by
  obtain ⟨hperm, hchain⟩ := h
  have hw : watched_df [topA, topB, topC] = [topA, topB, topC] := by decide
  rw [hw] at hperm
  have hlen := hperm.length_eq
  rcases out with _ | ⟨x, l1⟩
  · simp at hlen
  rcases l1 with _ | ⟨y, l2⟩
  · simp at hlen
  rcases l2 with _ | ⟨z, l3⟩
  · simp at hlen
  rcases l3 with _ | ⟨w, l4⟩
  · have hx : x ∈ [topA, topB, topC] := hperm.subset (by simp)
    have hy : y ∈ [topA, topB, topC] := hperm.subset (by simp)
    have hz : z ∈ [topA, topB, topC] := hperm.subset (by simp)
    have hcA := hperm.count_eq topA
    have hcB := hperm.count_eq topB
    have hcC := hperm.count_eq topC
    simp only [List.mem_cons, List.not_mem_nil, or_false] at hx hy hz
    rcases hx with rfl | rfl | rfl <;> rcases hy with rfl | rfl | rfl <;>
      rcases hz with rfl | rfl | rfl <;> revert hchain hcA hcB hcC <;> decide
  · simp at hlen

/-- Witness for C3 amended: the already-ordered output [A, B, C] satisfies
the sort contract and the conclusion. -/
theorem top_rated_spec_witness :
    ([topA, topB, topC] = [topA, topB, topC] ∨ [topA, topB, topC] = [topB, topA, topC]) ∧
    ([topA, topB, topC].take 2 = [topA, topB] ∨ [topA, topB, topC].take 2 = [topB, topA]) :=
  top_rated_spec [topA, topB, topC] ⟨by decide, by decide⟩

/-- Stripping the header names is the identity when they carry no
surrounding whitespace. -/
theorem stripColumns_id : ∀ cols : List (String × List Cell),
    (∀ p ∈ cols, pyStrip p.1 = p.1) → stripColumns cols = cols := by
  intro cols
  induction cols with
  | nil => intro _; rfl
  | cons p ps ih =>
    intro h
    obtain ⟨nm, cs⟩ := p
    have h1 : pyStrip nm = nm := h (nm, cs) (by simp)
    have h2 := ih (fun q hq => h q (List.mem_cons_of_mem _ hq))
    simp only [stripColumns, List.map_cons] at h2 ⊢
    rw [h1, h2]

/-- Label lookup ignores columns appended on the right when it already
succeeds on the left. -/
theorem lookupCol_append_left (cols extra : List (String × List Cell)) (name : String)
    (cells : List Cell) (h : lookupCol cols name = some cells) :
    lookupCol (cols ++ extra) name = some cells := by
  unfold lookupCol at h ⊢
  rw [List.find?_append]
  cases hf : cols.find? (fun p => p.1 == name) with
  | none => rw [hf] at h; simp at h
  | some p =>
    rw [hf] at h
    simpa using h

/-- The defaulting loop only appends columns, so a column present before it
is still found with the same cells afterwards. -/
theorem lookupCol_addMissing (cols : List (String × List Cell)) (n : Nat) (name : String)
    (cells : List Cell) (h : lookupCol cols name = some cells) :
    lookupCol (addMissingColumns cols n) name = some cells := by
  unfold addMissingColumns
  generalize requiredColumns = l
  induction l generalizing cols with
  | nil => simpa using h
  | cons nm l ih =>
    simp only [List.foldl_cons]
    apply ih
    by_cases hnm : (lookupCol cols nm).isSome
    · rw [if_pos hnm]; exact h
    · rw [if_neg hnm]; exact lookupCol_append_left _ _ _ _ h

/-- Overwriting the cells of the columns labelled `other` does not change
the lookup of a differently labelled column. -/
theorem lookupCol_map_overwrite (other name : String) (v : List Cell) (hne : name ≠ other)
    (cols : List (String × List Cell)) :
    lookupCol (cols.map (fun p => if p.1 == other then (p.1, v) else p)) name =
      lookupCol cols name := by
  unfold lookupCol
  rw [List.find?_map]
  have hcomp : ((fun p : String × List Cell => p.1 == name) ∘
      (fun p => if p.1 == other then (p.1, v) else p)) = fun p => p.1 == name := by
    funext p
    by_cases hp : p.1 = other <;> simp [hp]
  rw [hcomp]
  cases hf : List.find? (fun p : String × List Cell => p.1 == name) cols with
  | none => simp
  | some q =>
    have hq2 : q.1 = name := by simpa using List.find?_some hf
    have hqo : ¬ q.1 = other := by
      rw [hq2]
      exact hne
    simp [hqo]

/-- Column assignment under a fresh or existing label does not change the
lookup of a differently labelled column. -/
theorem lookupCol_setCol_ne (cols : List (String × List Cell)) (other name : String)
    (v : List Cell) (hne : name ≠ other) (cells : List Cell)
    (h : lookupCol cols name = some cells) :
    lookupCol (setCol cols other v) name = some cells := by
  unfold setCol
  by_cases hs : (lookupCol cols other).isSome
  · rw [if_pos hs, lookupCol_map_overwrite other name v hne cols]
    exact h
  · rw [if_neg hs]
    exact lookupCol_append_left _ _ _ _ h

/-- No required column is labelled `Genres_list`. -/
theorem required_ne_genres_list (name : String) (h : name ∈ requiredColumns) :
    name ≠ "Genres_list" := by
  fin_cases h <;> decide

/-- C9: export composed with load round-trips: on any table whose header
names carry no surrounding whitespace, every present required column
(Title, Year, Genres, Actors, Director, Plot, Poster_URL, Rating, Watched)
reappears in the export with exactly its original cells — the
normalization only strips headers, appends defaults for absent columns and
appends/overwrites the derived `Genres_list`.  The raw `Genres` and
`Actors` columns are among the preserved ones, so the derived lists are
recomputable from the export and semantically equal. -/
theorem export_load_round_trip (t : RawTable) (name : String) (cells : List Cell)
    (htrim : ∀ p ∈ t.cols, pyStrip p.1 = p.1)
    (hname : name ∈ requiredColumns)
    (hlook : lookupCol t.cols name = some cells) :
    lookupCol (to_csv (load_data t)) name = some cells := by
  simp only [to_csv, load_data]
  rw [stripColumns_id t.cols htrim]
  exact lookupCol_setCol_ne _ _ _ _ (required_ne_genres_list name hname) _
    (lookupCol_addMissing t.cols t.nrows name cells hlook)

/-- A concrete raw table with trimmed headers, missing most required
columns. -/
def rawSample : RawTable :=
  ⟨1, [("Title", [Cell.str "Braveheart"]), ("Rating", [Cell.num 7])]⟩

/-- Witness for C9 at the concrete raw table. -/
theorem export_load_round_trip_witness :
    lookupCol (to_csv (load_data rawSample)) "Title" = some [Cell.str "Braveheart"] :=
  export_load_round_trip rawSample "Title" [Cell.str "Braveheart"]
    (by decide) (by decide) (by decide)
